import Mathlib

/-!
Shallow embedding of `dynamic_db_router/router.py` (django-dynamic-db-router).

The module consists of:
* two context variables `DB_FOR_READ_OVERRIDE` and `DB_FOR_WRITE_OVERRIDE`
  (default value `"default"`) holding the current read/write database alias;
* `DynamicDbRouter`, whose `db_for_read` / `db_for_write` return the current
  value of the corresponding context variable, ignoring model and hints;
* `in_database`, a context manager / decorator that snapshots the two cells at
  entry, conditionally redirects them, and restores the snapshots at exit,
  optionally registering an ephemeral connection configuration (dict argument)
  in `connections.databases` under a fresh uuid and tearing it down at exit.

We model the mutable ambient state of one logical execution context as a
`World`: the two alias cells, the `connections.databases` registry (an
association list, mirroring Python dict insertion/deletion order semantics),
and a log of connections that have been closed.  Python's in-place mutation of
the `in_database` instance (`self.original_read_db = ...`) is modelled by
`enter` returning the updated instance alongside the updated world; `__exit__`
only reads the instance, so `exit` returns just the world.  `uuid4` is
modelled by passing the generated identifier as an explicit argument to
`init`; its freshness is a hypothesis where a claim needs it.
-/

/-- A connection configuration dictionary (e.g. ENGINE/NAME pairs).  The
router never inspects it, so string-to-string pairs suffice. -/
def DbConfig : Type := List (String × String)

instance : DecidableEq DbConfig := by
  unfold DbConfig
  infer_instance

/-- The dynamic type of the `database` argument of `in_database.__init__`:
a string alias, a configuration dict, or any other Python value (represented
by its repr, e.g. `other "42"` for the integer 42). -/
inductive DbArg where
  | str (s : String)
  | dict (d : DbConfig)
  | other (r : String)
deriving DecidableEq

/-- The ambient mutable state of one logical execution context:
the two alias context variables, `connections.databases`, and a log of the
connections closed so far (a `close()` call on alias `a` appends `a`). -/
structure World where
  readDB : String
  writeDB : String
  databases : List (String × DbConfig)
  closedConns : List String
deriving DecidableEq

/-- The default state: both context variables hold `'default'`
(their declared default), registry as given, nothing closed yet. -/
def World.initial (dbs : List (String × DbConfig)) : World :=
  { readDB := "default", writeDB := "default", databases := dbs, closedConns := [] }

/-- Python dict assignment `m[k] = v`: update the existing entry in place if
the key is present, otherwise append a new entry. -/
def dictInsert (k : String) (v : DbConfig) : List (String × DbConfig) → List (String × DbConfig)
  | [] => [(k, v)]
  | (k', v') :: rest => if k' = k then (k, v) :: rest else (k', v') :: dictInsert k v rest

/-- Python dict deletion `del m[k]`: remove the (first) entry with key `k`. -/
def dictErase (k : String) : List (String × DbConfig) → List (String × DbConfig)
  | [] => []
  | (k', v') :: rest => if k' = k then rest else (k', v') :: dictErase k rest

/-- `DynamicDbRouter.db_for_read(self, model, **hints)`:
returns `DB_FOR_READ_OVERRIDE.get()`, ignoring `model` and `hints`. -/
def DynamicDbRouter.db_for_read {M H : Type} (model : M) (hints : H) (w : World) : String :=
  w.readDB

/-- `DynamicDbRouter.db_for_write(self, model, **hints)`:
returns `DB_FOR_WRITE_OVERRIDE.get()`, ignoring `model` and `hints`. -/
def DynamicDbRouter.db_for_write {M H : Type} (model : M) (hints : H) (w : World) : String :=
  w.writeDB

/-- `DynamicDbRouter.allow_relation(self, *args, **kwargs)`: always `True`. -/
def DynamicDbRouter.allow_relation {A : Type} (args : A) : Bool :=
  true

/-- `DynamicDbRouter.allow_syncdb(self, *args, **kwargs)`: always `None`. -/
def DynamicDbRouter.allow_syncdb {A : Type} (args : A) : Option Bool :=
  none

/-- `DynamicDbRouter.allow_migrate(self, *args, **kwargs)`: always `None`. -/
def DynamicDbRouter.allow_migrate {A : Type} (args : A) : Option Bool :=
  none

/-- The `in_database` instance.  `database` holds the resolved target alias
(the string argument, or the generated uuid for a dict argument);
`unique_db_id` is meaningful only when `created_db_config` is true;
`original_read_db` / `original_write_db` are the snapshots written by
`__enter__` / `__aenter__` (empty before the first entry, mirroring the
attributes not existing yet). -/
structure in_database where
  read : Bool
  write : Bool
  database : String
  created_db_config : Bool
  unique_db_id : String
  original_read_db : String
  original_write_db : String
deriving DecidableEq

/-- `in_database.__init__(self, database, read=True, write=False)`.
A string argument is stored verbatim; a dict argument registers the
configuration in `connections.databases` under the freshly generated
identifier (`uuid4`, passed here as `freshId`) and stores that identifier;
anything else raises `ValueError` before touching any shared state. -/
def in_database.init (database : DbArg) (freshId : String) (read write : Bool)
    (w : World) : Except String in_database × World :=
  match database with
  | .str s =>
      (Except.ok { read := read, write := write, database := s,
                   created_db_config := false, unique_db_id := "",
                   original_read_db := "", original_write_db := "" }, w)
  | .dict d =>
      (Except.ok { read := read, write := write, database := freshId,
                   created_db_config := true, unique_db_id := freshId,
                   original_read_db := "", original_write_db := "" },
       { w with databases := dictInsert freshId d w.databases })
  | .other _ =>
      (Except.error ("database must be an identifier (str) for an existing db, " ++
                     "or a complete configuration (dict)."), w)

/-- `in_database.__enter__`: snapshot both context variables into the
instance, then set each cell to `self.database` if the corresponding flag is
set.  Returns the (mutated) instance, as `return self` does. -/
def in_database.enter (o : in_database) (w : World) : in_database × World :=
  let o' := { o with original_read_db := w.readDB, original_write_db := w.writeDB }
  let w' := { w with readDB := if o.read then o.database else w.readDB,
                     writeDB := if o.write then o.database else w.writeDB }
  (o', w')

/-- `in_database.__exit__`: restore both context variables from the
instance snapshots unconditionally; if this instance created a db config,
close the connection and delete the registry entry.  Returns `None`
(falsy), so any in-scope exception propagates unchanged. -/
def in_database.exit (o : in_database) (w : World) : World :=
  let w1 := { w with readDB := o.original_read_db, writeDB := o.original_write_db }
  if o.created_db_config then
    { w1 with closedConns := w1.closedConns ++ [o.unique_db_id],
              databases := dictErase o.unique_db_id w1.databases }
  else w1

/-- `in_database.__aenter__`: same body as `__enter__` (snapshot, then
conditionally set each cell). -/
def in_database.aenter (o : in_database) (w : World) : in_database × World :=
  let o' := { o with original_read_db := w.readDB, original_write_db := w.writeDB }
  let w' := { w with readDB := if o.read then o.database else w.readDB,
                     writeDB := if o.write then o.database else w.writeDB }
  (o', w')

/-- `in_database._close_connection`: `connections[self.unique_db_id].close()`
then `del connections.databases[self.unique_db_id]`. -/
def in_database.close_connection (o : in_database) (w : World) : World :=
  { w with closedConns := w.closedConns ++ [o.unique_db_id],
           databases := dictErase o.unique_db_id w.databases }

/-- `in_database.__aexit__`: restore both context variables, then, if this
instance created a db config, run `_close_connection` (offloaded to an
executor in the source; the offloading is a scheduling detail with no effect
on the sequential state). -/
def in_database.aexit (o : in_database) (w : World) : World :=
  let w1 := { w with readDB := o.original_read_db, writeDB := o.original_write_db }
  if o.created_db_config then in_database.close_connection o w1 else w1

/-- Python `with o: body` semantics over the embedding: enter, run the body
on the post-entry world (the body returns its outcome — normal value or
raised exception — together with the world it leaves behind), then always run
`__exit__` on the instance as mutated by the entry; since `__exit__` returns
a falsy value, the body's outcome passes through unchanged. -/
def pyWith {E A : Type} (o : in_database) (w : World)
    (body : World → Except E A × World) : Except E A × World :=
  let p := in_database.enter o w
  let q := body p.2
  (q.1, in_database.exit p.1 q.2)

/-- A Python function value as seen by the decorator: identity metadata
(`__name__`, `__doc__`) and its behaviour on the ambient state. -/
structure PyFunc (A B E : Type) where
  name : String
  doc : String
  run : A → World → Except E B × World

/-- `in_database.__call__(self, querying_func)`: returns a wrapper (with
`functools.wraps` copying the name and docstring) whose every invocation
runs `querying_func` inside `with self:` around that single call. -/
def in_database.call {A B E : Type} (o : in_database) (f : PyFunc A B E) : PyFunc A B E :=
  { name := f.name, doc := f.doc, run := fun a w => pyWith o w (f.run a) }

/-! ### Helper lemmas -/

/-- Inserting under a key absent from the registry appends a new entry. -/
theorem dictInsert_fresh (k : String) (v : DbConfig) (m : List (String × DbConfig))
    (h : k ∉ m.map Prod.fst) : dictInsert k v m = m ++ [(k, v)] := by
  induction m with
  | nil => rfl
  | cons e rest ih =>
      simp only [List.map, List.mem_cons] at h
      push_neg at h
      simp only [dictInsert, List.cons_append]
      rw [if_neg (fun he => h.1 he.symm), ih h.2]

/-- Erasing a key absent from a registry prefix removes exactly the appended
entry with that key. -/
theorem dictErase_append_fresh (k : String) (v : DbConfig) (m : List (String × DbConfig))
    (h : k ∉ m.map Prod.fst) : dictErase k (m ++ [(k, v)]) = m := by
  induction m with
  | nil => simp [dictErase]
  | cons e rest ih =>
      obtain ⟨k', v'⟩ := e
      simp only [List.map, List.mem_cons] at h
      push_neg at h
      simp only [List.cons_append, dictErase, List.append_eq]
      rw [if_neg (fun he => h.1 he.symm), ih h.2]

/-- The read cell after `__exit__` is always the snapshot stored in the
instance, whether or not an ephemeral config is torn down. -/
theorem exit_readDB (o : in_database) (w : World) :
    (in_database.exit o w).readDB = o.original_read_db := by
  simp only [in_database.exit]
  split <;> rfl

/-- The write cell after `__exit__` is always the snapshot stored in the
instance. -/
theorem exit_writeDB (o : in_database) (w : World) :
    (in_database.exit o w).writeDB = o.original_write_db := by
  simp only [in_database.exit]
  split <;> rfl

/-! ### Claims -/

/-- Claim C1: for every alias string A and pre-entry state, a read+write
override makes both cells equal A inside the scope and exit (normal
completion) restores both cells to their pre-entry values; with the default
flags (read only) the read cell is redirected and the write cell keeps its
pre-entry value inside the scope and after exit. -/
theorem claim_c1 (A : String) (w : World) (orw odef : in_database)
    (hrw : (in_database.init (DbArg.str A) "" true true w).1 = Except.ok orw)
    (hdef : (in_database.init (DbArg.str A) "" true false w).1 = Except.ok odef) :
    (in_database.init (DbArg.str A) "" true true w).2 = w ∧
    ((orw.enter w).2.readDB = A ∧ (orw.enter w).2.writeDB = A ∧
      in_database.exit (orw.enter w).1 (orw.enter w).2 = w) ∧
    ((odef.enter w).2.readDB = A ∧ (odef.enter w).2.writeDB = w.writeDB ∧
      in_database.exit (odef.enter w).1 (odef.enter w).2 = w) := by
  simp only [in_database.init] at hrw hdef
  injection hrw with hrw
  injection hdef with hdef
  subst hrw
  subst hdef
  exact ⟨rfl, ⟨rfl, rfl, rfl⟩, ⟨rfl, rfl, rfl⟩⟩

/-- Witness for C1 at A = "replica" on the default state. -/
theorem claim_c1_witness :
    (in_database.init (DbArg.str "replica") "" true true (World.initial [])).1
        = Except.ok ⟨true, true, "replica", false, "", "", ""⟩ ∧
    (in_database.init (DbArg.str "replica") "" true false (World.initial [])).1
        = Except.ok ⟨true, false, "replica", false, "", "", ""⟩ ∧
    ((in_database.init (DbArg.str "replica") "" true true (World.initial [])).2
        = World.initial [] ∧
     (((⟨true, true, "replica", false, "", "", ""⟩ : in_database).enter
          (World.initial [])).2.readDB = "replica" ∧
      ((⟨true, true, "replica", false, "", "", ""⟩ : in_database).enter
          (World.initial [])).2.writeDB = "replica" ∧
      in_database.exit
          ((⟨true, true, "replica", false, "", "", ""⟩ : in_database).enter
            (World.initial [])).1
          ((⟨true, true, "replica", false, "", "", ""⟩ : in_database).enter
            (World.initial [])).2 = World.initial []) ∧
     (((⟨true, false, "replica", false, "", "", ""⟩ : in_database).enter
          (World.initial [])).2.readDB = "replica" ∧
      ((⟨true, false, "replica", false, "", "", ""⟩ : in_database).enter
          (World.initial [])).2.writeDB = (World.initial []).writeDB ∧
      in_database.exit
          ((⟨true, false, "replica", false, "", "", ""⟩ : in_database).enter
            (World.initial [])).1
          ((⟨true, false, "replica", false, "", "", ""⟩ : in_database).enter
            (World.initial [])).2 = World.initial [])) :=
  ⟨rfl, rfl, claim_c1 "replica" (World.initial []) _ _ rfl rfl⟩

/-- Claim C2: if the body of a `with` block raises, `__exit__` still runs —
both cells are restored to the snapshots taken at entry (the pre-entry
values) — and the original exception propagates unchanged. -/
theorem claim_c2 {E A : Type} (o : in_database) (w : World)
    (body : World → Except E A × World) (e : E) (w2 : World)
    (hbody : body (in_database.enter o w).2 = (Except.error e, w2)) :
    pyWith o w body = (Except.error e, in_database.exit (in_database.enter o w).1 w2) ∧
    (pyWith o w body).2.readDB = w.readDB ∧
    (pyWith o w body).2.writeDB = w.writeDB := by
  refine ⟨?_, ?_, ?_⟩
  · simp only [pyWith, hbody]
  · simp only [pyWith, hbody]
    rw [exit_readDB]
    rfl
  · simp only [pyWith, hbody]
    rw [exit_writeDB]
    rfl

/-- Witness for C2: a body that raises "boom" under a read override. -/
theorem claim_c2_witness :
    (fun _ : World => ((Except.error "boom" : Except String Nat), World.initial []))
        ((in_database.enter ⟨true, false, "replica", false, "", "", ""⟩
          (World.initial [])).2)
      = (Except.error "boom", World.initial []) ∧
    pyWith (⟨true, false, "replica", false, "", "", ""⟩ : in_database) (World.initial [])
        (fun _ : World => ((Except.error "boom" : Except String Nat), World.initial []))
      = (Except.error "boom",
         in_database.exit
           (in_database.enter ⟨true, false, "replica", false, "", "", ""⟩
             (World.initial [])).1 (World.initial [])) ∧
    (pyWith (⟨true, false, "replica", false, "", "", ""⟩ : in_database) (World.initial [])
        (fun _ : World =>
          ((Except.error "boom" : Except String Nat), World.initial []))).2.readDB
      = (World.initial []).readDB ∧
    (pyWith (⟨true, false, "replica", false, "", "", ""⟩ : in_database) (World.initial [])
        (fun _ : World =>
          ((Except.error "boom" : Except String Nat), World.initial []))).2.writeDB
      = (World.initial []).writeDB :=
  ⟨rfl, claim_c2 ⟨true, false, "replica", false, "", "", ""⟩ (World.initial []) _ "boom"
    (World.initial []) rfl⟩

/-- Claim C3: nested distinct overrides compose LIFO — with outer
O1(X, read only) and inner O2(Y, write only): inside O2 read is X and write
is Y; after O2 exits read is X and write is the pre-O1 value; after O1 exits
both cells hold the pre-O1 values. -/
theorem claim_c3 (X Y : String) (w : World) (o1 o2 : in_database)
    (h1 : (in_database.init (DbArg.str X) "" true false w).1 = Except.ok o1)
    (h2 : (in_database.init (DbArg.str Y) "" false true w).1 = Except.ok o2) :
    ((o2.enter (o1.enter w).2).2.readDB = X ∧
     (o2.enter (o1.enter w).2).2.writeDB = Y) ∧
    ((in_database.exit (o2.enter (o1.enter w).2).1
        (o2.enter (o1.enter w).2).2).readDB = X ∧
     (in_database.exit (o2.enter (o1.enter w).2).1
        (o2.enter (o1.enter w).2).2).writeDB = w.writeDB) ∧
    ((in_database.exit (o1.enter w).1
        (in_database.exit (o2.enter (o1.enter w).2).1
          (o2.enter (o1.enter w).2).2)).readDB = w.readDB ∧
     (in_database.exit (o1.enter w).1
        (in_database.exit (o2.enter (o1.enter w).2).1
          (o2.enter (o1.enter w).2).2)).writeDB = w.writeDB) := by
  simp only [in_database.init] at h1 h2
  injection h1 with h1
  injection h2 with h2
  subst h1
  subst h2
  exact ⟨⟨rfl, rfl⟩, ⟨rfl, rfl⟩, ⟨rfl, rfl⟩⟩

/-- Witness for C3 at X = "a", Y = "b" on the default state. -/
theorem claim_c3_witness :
    (in_database.init (DbArg.str "a") "" true false (World.initial [])).1
        = Except.ok ⟨true, false, "a", false, "", "", ""⟩ ∧
    (in_database.init (DbArg.str "b") "" false true (World.initial [])).1
        = Except.ok ⟨false, true, "b", false, "", "", ""⟩ ∧
    (let o1 : in_database := ⟨true, false, "a", false, "", "", ""⟩
     let o2 : in_database := ⟨false, true, "b", false, "", "", ""⟩
     let w : World := World.initial []
     ((o2.enter (o1.enter w).2).2.readDB = "a" ∧
      (o2.enter (o1.enter w).2).2.writeDB = "b") ∧
     ((in_database.exit (o2.enter (o1.enter w).2).1
         (o2.enter (o1.enter w).2).2).readDB = "a" ∧
      (in_database.exit (o2.enter (o1.enter w).2).1
         (o2.enter (o1.enter w).2).2).writeDB = w.writeDB) ∧
     ((in_database.exit (o1.enter w).1
         (in_database.exit (o2.enter (o1.enter w).2).1
           (o2.enter (o1.enter w).2).2)).readDB = w.readDB ∧
      (in_database.exit (o1.enter w).1
         (in_database.exit (o2.enter (o1.enter w).2).1
           (o2.enter (o1.enter w).2).2)).writeDB = w.writeDB)) :=
  ⟨rfl, rfl, claim_c3 "a" "b" (World.initial []) _ _ rfl rfl⟩

/-- Claim C4: constructing with a `database` argument that is neither a
string nor a dict raises ValueError synchronously and leaves the whole
shared state (alias cells and connection registry) unchanged. -/
theorem claim_c4 (r : String) (freshId : String) (rd wr : Bool) (w : World) :
    (in_database.init (DbArg.other r) freshId rd wr w).1
      = Except.error ("database must be an identifier (str) for an existing db, " ++
                      "or a complete configuration (dict).") ∧
    (in_database.init (DbArg.other r) freshId rd wr w).2 = w :=
  ⟨rfl, rfl⟩

/-- Claim C5: a dict argument registers exactly one new registry entry under
the freshly generated, previously-unused identifier and sets the target to
it; exit closes that connection and removes the entry; a string argument
never adds or removes a registry entry and never closes a connection. -/
theorem claim_c5 (d : DbConfig) (s freshId : String) (rd wr : Bool)
    (w : World) (o os : in_database)
    (hfresh : freshId ∉ w.databases.map Prod.fst)
    (ho : (in_database.init (DbArg.dict d) freshId rd wr w).1 = Except.ok o)
    (hos : (in_database.init (DbArg.str s) freshId rd wr w).1 = Except.ok os) :
    (in_database.init (DbArg.dict d) freshId rd wr w).2.databases
      = w.databases ++ [(freshId, d)] ∧
    o.database = freshId ∧
    o.created_db_config = true ∧
    ((in_database.exit
        (o.enter (in_database.init (DbArg.dict d) freshId rd wr w).2).1
        (o.enter (in_database.init (DbArg.dict d) freshId rd wr w).2).2).databases
      = w.databases ∧
     (in_database.exit
        (o.enter (in_database.init (DbArg.dict d) freshId rd wr w).2).1
        (o.enter (in_database.init (DbArg.dict d) freshId rd wr w).2).2).closedConns
      = w.closedConns ++ [freshId]) ∧
    ((in_database.init (DbArg.str s) freshId rd wr w).2 = w ∧
     (in_database.exit (os.enter w).1 (os.enter w).2).databases = w.databases ∧
     (in_database.exit (os.enter w).1 (os.enter w).2).closedConns = w.closedConns) := by
  simp only [in_database.init] at ho hos
  injection ho with ho
  injection hos with hos
  subst ho
  subst hos
  refine ⟨?_, rfl, rfl, ⟨?_, rfl⟩, rfl, rfl, rfl⟩
  · exact dictInsert_fresh freshId d w.databases hfresh
  · show dictErase freshId (dictInsert freshId d w.databases) = w.databases
    rw [dictInsert_fresh freshId d w.databases hfresh]
    exact dictErase_append_fresh freshId d w.databases hfresh

/-- Witness for C5 at a one-entry configuration on an empty registry. -/
theorem claim_c5_witness :
    ("u1" ∉ (World.initial []).databases.map Prod.fst) ∧
    ((in_database.init (DbArg.dict [("ENGINE", "sqlite3")]) "u1" true false
        (World.initial [])).1
      = Except.ok ⟨true, false, "u1", true, "u1", "", ""⟩) ∧
    ((in_database.init (DbArg.str "replica") "u1" true false (World.initial [])).1
      = Except.ok ⟨true, false, "replica", false, "", "", ""⟩) ∧
    ((in_database.init (DbArg.dict [("ENGINE", "sqlite3")]) "u1" true false
        (World.initial [])).2.databases
      = (World.initial []).databases ++
          ([("u1", [("ENGINE", "sqlite3")])] : List (String × DbConfig)) ∧
     (⟨true, false, "u1", true, "u1", "", ""⟩ : in_database).database = "u1" ∧
     (⟨true, false, "u1", true, "u1", "", ""⟩ : in_database).created_db_config = true ∧
     ((in_database.exit
         ((⟨true, false, "u1", true, "u1", "", ""⟩ : in_database).enter
           (in_database.init (DbArg.dict [("ENGINE", "sqlite3")]) "u1" true false
             (World.initial [])).2).1
         ((⟨true, false, "u1", true, "u1", "", ""⟩ : in_database).enter
           (in_database.init (DbArg.dict [("ENGINE", "sqlite3")]) "u1" true false
             (World.initial [])).2).2).databases
       = (World.initial []).databases ∧
      (in_database.exit
         ((⟨true, false, "u1", true, "u1", "", ""⟩ : in_database).enter
           (in_database.init (DbArg.dict [("ENGINE", "sqlite3")]) "u1" true false
             (World.initial [])).2).1
         ((⟨true, false, "u1", true, "u1", "", ""⟩ : in_database).enter
           (in_database.init (DbArg.dict [("ENGINE", "sqlite3")]) "u1" true false
             (World.initial [])).2).2).closedConns
       = (World.initial []).closedConns ++ ["u1"]) ∧
     ((in_database.init (DbArg.str "replica") "u1" true false (World.initial [])).2
        = World.initial [] ∧
      (in_database.exit
         ((⟨true, false, "replica", false, "", "", ""⟩ : in_database).enter
           (World.initial [])).1
         ((⟨true, false, "replica", false, "", "", ""⟩ : in_database).enter
           (World.initial [])).2).databases = (World.initial []).databases ∧
      (in_database.exit
         ((⟨true, false, "replica", false, "", "", ""⟩ : in_database).enter
           (World.initial [])).1
         ((⟨true, false, "replica", false, "", "", ""⟩ : in_database).enter
           (World.initial [])).2).closedConns = (World.initial []).closedConns)) :=
  ⟨by decide, rfl, rfl,
    claim_c5 [("ENGINE", "sqlite3")] "replica" "u1" true false (World.initial []) _ _
      (by decide) rfl rfl⟩

/-- Claim C6: the decorator wrapper preserves the function's name and
docstring, and each invocation of the wrapper is exactly: enter the scope,
run the function on the post-entry state, exit with the entry-time instance
— same result (value or exception) and same final state as the manual
context-manager usage. -/
theorem claim_c6 {A B E : Type} (o : in_database) (f : PyFunc A B E)
    (a : A) (w : World) :
    (o.call f).name = f.name ∧ (o.call f).doc = f.doc ∧
    (o.call f).run a w
      = ((f.run a (in_database.enter o w).2).1,
         in_database.exit (in_database.enter o w).1
           (f.run a (in_database.enter o w).2).2) :=
  ⟨rfl, rfl, rfl⟩

/-- Claim C7: the router's read hook returns the read cell and the write
hook returns the write cell, for any model and hints; two calls with
different models/hints on the same state return the same alias. -/
theorem claim_c7 {M H M2 H2 : Type} (m : M) (h : H) (m2 : M2) (h2 : H2) (w : World) :
    DynamicDbRouter.db_for_read m h w = w.readDB ∧
    DynamicDbRouter.db_for_write m h w = w.writeDB ∧
    DynamicDbRouter.db_for_read m h w = DynamicDbRouter.db_for_read m2 h2 w ∧
    DynamicDbRouter.db_for_write m h w = DynamicDbRouter.db_for_write m2 h2 w :=
  ⟨rfl, rfl, rfl, rfl⟩

/-- Claim C8: on every instance and state, the async entry has exactly the
same effect as the sync entry, and the async exit the same effect as the
sync exit (in the sequential state model the executor offloading of the
teardown is unobservable). -/
theorem claim_c8 (o : in_database) (w : World) :
    in_database.aenter o w = in_database.enter o w ∧
    in_database.aexit o w = in_database.exit o w :=
  ⟨rfl, rfl⟩

/-- Counterexample to C9: construct one instance o with database "replica"
(read=True, write=False) on the default state, enter it twice (the second
entry sees the instance as mutated by the first and overwrites its
snapshots), then exit twice — both exits read the snapshots the second
entry stored on the shared instance.  After both exits the read cell holds
"replica", not the pre-outermost-entry value "default". -/
theorem claim_c9_counterexample :
    (in_database.init (DbArg.str "replica") "" true false (World.initial [])).1
        = Except.ok ⟨true, false, "replica", false, "", "", ""⟩ ∧
    (let o0 : in_database := ⟨true, false, "replica", false, "", "", ""⟩
     let p1 := o0.enter (World.initial [])
     let p2 := p1.1.enter p1.2
     let w3 := in_database.exit p2.1 p2.2
     let w4 := in_database.exit p2.1 w3
     (World.initial []).readDB = "default" ∧
     w4.readDB = "replica" ∧ w4.readDB ≠ "default") :=
  ⟨rfl, rfl, rfl, by decide⟩

/-- Claim C9 as amended: re-entering the same in_database instance nested
inside its own active scope overwrites the snapshots stored on the shared
instance, so exiting both levels does NOT restore the pre-outermost-entry
values on the redirected axis: for an instance with read=True, write=False
and target A, after the inner exit and again after the outer exit the read
cell holds A (the second entry's snapshot) while the write cell, untouched
by the override, keeps its pre-entry value. -/
theorem claim_c9_amended (A : String) (w : World) (o : in_database)
    (h : (in_database.init (DbArg.str A) "" true false w).1 = Except.ok o) :
    ((in_database.exit ((o.enter w).1.enter (o.enter w).2).1
        ((o.enter w).1.enter (o.enter w).2).2).readDB = A ∧
     (in_database.exit ((o.enter w).1.enter (o.enter w).2).1
        ((o.enter w).1.enter (o.enter w).2).2).writeDB = w.writeDB) ∧
    ((in_database.exit ((o.enter w).1.enter (o.enter w).2).1
        (in_database.exit ((o.enter w).1.enter (o.enter w).2).1
          ((o.enter w).1.enter (o.enter w).2).2)).readDB = A ∧
     (in_database.exit ((o.enter w).1.enter (o.enter w).2).1
        (in_database.exit ((o.enter w).1.enter (o.enter w).2).1
          ((o.enter w).1.enter (o.enter w).2).2)).writeDB = w.writeDB) := by
  simp only [in_database.init] at h
  injection h with h
  subst h
  exact ⟨⟨rfl, rfl⟩, rfl, rfl⟩

/-- Witness for the amended C9 at A = "replica" on the default state. -/
theorem claim_c9_amended_witness :
    (in_database.init (DbArg.str "replica") "" true false (World.initial [])).1
        = Except.ok ⟨true, false, "replica", false, "", "", ""⟩ ∧
    (let o : in_database := ⟨true, false, "replica", false, "", "", ""⟩
     let w : World := World.initial []
     ((in_database.exit ((o.enter w).1.enter (o.enter w).2).1
         ((o.enter w).1.enter (o.enter w).2).2).readDB = "replica" ∧
      (in_database.exit ((o.enter w).1.enter (o.enter w).2).1
         ((o.enter w).1.enter (o.enter w).2).2).writeDB = w.writeDB) ∧
     ((in_database.exit ((o.enter w).1.enter (o.enter w).2).1
         (in_database.exit ((o.enter w).1.enter (o.enter w).2).1
           ((o.enter w).1.enter (o.enter w).2).2)).readDB = "replica" ∧
      (in_database.exit ((o.enter w).1.enter (o.enter w).2).1
         (in_database.exit ((o.enter w).1.enter (o.enter w).2).1
           ((o.enter w).1.enter (o.enter w).2).2)).writeDB = w.writeDB)) :=
  ⟨rfl, claim_c9_amended "replica" (World.initial []) _ rfl⟩

/-- Claim C10: with a dict argument the registry entry is inserted during
construction itself, with the alias cells untouched; scope entry (sync or
async) never changes the registry or the closed log, so a constructed but
never-entered override leaves the entry registered; removal of the entry
and closing of the connection happen in the exit path. -/
theorem claim_c10 (d : DbConfig) (freshId : String) (rd wr : Bool)
    (w : World) (hfresh : freshId ∉ w.databases.map Prod.fst) :
    (in_database.init (DbArg.dict d) freshId rd wr w).2.databases
      = w.databases ++ [(freshId, d)] ∧
    (in_database.init (DbArg.dict d) freshId rd wr w).2.readDB = w.readDB ∧
    (in_database.init (DbArg.dict d) freshId rd wr w).2.writeDB = w.writeDB ∧
    (in_database.init (DbArg.dict d) freshId rd wr w).2.closedConns = w.closedConns ∧
    (∀ o2 : in_database, ∀ w2 : World,
       (in_database.enter o2 w2).2.databases = w2.databases ∧
       (in_database.enter o2 w2).2.closedConns = w2.closedConns ∧
       (in_database.aenter o2 w2).2.databases = w2.databases ∧
       (in_database.aenter o2 w2).2.closedConns = w2.closedConns) ∧
    (∀ o2 : in_database, ∀ w2 : World, o2.created_db_config = true →
       (in_database.exit o2 w2).databases = dictErase o2.unique_db_id w2.databases ∧
       (in_database.exit o2 w2).closedConns = w2.closedConns ++ [o2.unique_db_id]) := by
  refine ⟨?_, rfl, rfl, rfl, fun o2 w2 => ⟨rfl, rfl, rfl, rfl⟩, fun o2 w2 hc => ?_⟩
  · show dictInsert freshId d w.databases = w.databases ++ [(freshId, d)]
    exact dictInsert_fresh freshId d w.databases hfresh
  · unfold in_database.exit
    rw [hc]
    exact ⟨rfl, rfl⟩

/-- Witness for C10 at a one-entry configuration on an empty registry. -/
theorem claim_c10_witness :
    ("u2" ∉ (World.initial []).databases.map Prod.fst) ∧
    ((in_database.init (DbArg.dict [("ENGINE", "sqlite3")]) "u2" true false
        (World.initial [])).2.databases
      = (World.initial []).databases ++
          ([("u2", [("ENGINE", "sqlite3")])] : List (String × DbConfig)) ∧
     (in_database.init (DbArg.dict [("ENGINE", "sqlite3")]) "u2" true false
        (World.initial [])).2.readDB = (World.initial []).readDB ∧
     (in_database.init (DbArg.dict [("ENGINE", "sqlite3")]) "u2" true false
        (World.initial [])).2.writeDB = (World.initial []).writeDB ∧
     (in_database.init (DbArg.dict [("ENGINE", "sqlite3")]) "u2" true false
        (World.initial [])).2.closedConns = (World.initial []).closedConns ∧
     (∀ o2 : in_database, ∀ w2 : World,
        (in_database.enter o2 w2).2.databases = w2.databases ∧
        (in_database.enter o2 w2).2.closedConns = w2.closedConns ∧
        (in_database.aenter o2 w2).2.databases = w2.databases ∧
        (in_database.aenter o2 w2).2.closedConns = w2.closedConns) ∧
     (∀ o2 : in_database, ∀ w2 : World, o2.created_db_config = true →
        (in_database.exit o2 w2).databases = dictErase o2.unique_db_id w2.databases ∧
        (in_database.exit o2 w2).closedConns = w2.closedConns ++ [o2.unique_db_id])) :=
  ⟨by decide,
    claim_c10 [("ENGINE", "sqlite3")] "u2" true false (World.initial []) (by decide)⟩
